import Mathlib

/-!
Shallow embedding of the resilient PSD rendering pipeline of
`src/lib/psd-service.ts` (repository Glasspdf).

Bytes are modelled as `Nat` (the code only compares and copies them).
JavaScript `undefined`-able fields are modelled with `Option`; JS truthiness
is made explicit at each use site (`0` and `""` are falsy, an empty array is
truthy).  The external parser `readPsd` (library `ag-psd`) is a parameter:
a function from the byte buffer and the option record to a parsed `Psd` or a
thrown error (`Except`).  The 2D canvas context is modelled observationally:
`putImageData` sets the pixel buffer of the canvas, `drawImage` appends a
draw operation recording the image drawn, the effective global alpha, the
composite operation and the position, exactly the state the source sets
around each `drawImage` call.
-/

namespace Glasspdf

/-- Raw pixel data record (`{ data, width, height }` as consumed by
`pixelDataToCanvas`; `data` is the byte sequence of the typed array). -/
structure PixelData where
  width : Nat
  height : Nat
  data : List Nat
deriving Repr, DecidableEq

/-- The raster content of a drawn image (an `HTMLCanvasElement` as observed
by `drawImage`: its dimensions and its pixels). -/
structure Image where
  width : Nat
  height : Nat
  pixels : List Nat
deriving Repr, DecidableEq

/-- One `ctx.drawImage` call together with the context state the source sets
around it: `globalAlpha` is `alphaNum / 255` (we store the numerator, the
source computes `(l.opacity ?? 255) / 255`), `compositeOp` is the
`globalCompositeOperation` in force, `(x, y)` the position arguments. -/
structure DrawOp where
  image : Image
  alphaNum : Nat
  compositeOp : String
  x : Int
  y : Int
deriving Repr, DecidableEq

/-- A canvas: dimensions, the pixel buffer written by `putImageData`
(zero/transparent where never written), and the draw operations painted onto
it by the manual compositors, in paint order. -/
structure Canvas where
  width : Nat
  height : Nat
  pixels : List Nat
  ops : List DrawOp
deriving Repr, DecidableEq

/-- A canvas viewed as the raster a `drawImage` call consumes. -/
def Canvas.toImage (c : Canvas) : Image :=
  { width := c.width, height := c.height, pixels := c.pixels }

/-- An `ag-psd` `Layer` as the compositors read it.  `children` is `some`
exactly when the JS object carries a `children` array (possibly empty):
`if (l.children)` is true for an empty array. -/
structure Layer where
  hidden : Bool
  adjustment : Bool
  children : Option (List Layer)
  imageData : Option PixelData
  canvas : Option Canvas
  opacity : Option Nat
  blendMode : Option String
  left : Option Int
  top : Option Int

/-- An `ag-psd` `Psd` as `renderPSDToCanvas` reads it.  `width = 0` models a
missing/zero (falsy) width, as the source only tests truthiness. -/
structure Psd where
  width : Nat
  height : Nat
  children : Option (List Layer)
  imageData : Option PixelData
  canvas : Option Canvas

/-- The `new ImageData(data, sw, sh)` constructor of the HTML standard:
fails (`InvalidStateError`) when the data length is not a nonzero multiple
of four, and (`IndexSizeError`) when `sw` is zero, the pixel count is not a
multiple of `sw`, or `sh` does not equal `length / (4 * sw)`; otherwise the
object holds exactly `data`. -/
def mkImageData (data : List Nat) (sw sh : Nat) : Except String (List Nat) :=
  if data.length = 0 ∨ data.length % 4 ≠ 0 then
    .error "InvalidStateError"
  else if sw = 0 ∨ (data.length / 4) % sw ≠ 0 then
    .error "IndexSizeError"
  else if sh ≠ data.length / 4 / sw then
    .error "IndexSizeError"
  else
    .ok data

/-- `pixelDataToCanvas`: creates a `width × height` canvas; when the data is
non-empty, fills a zeroed buffer of `width * height * 4` bytes with the data
truncated to that length (`buf.set(src.length <= buf.length ? src :
src.subarray(0, buf.length))`), wraps it in an `ImageData` and writes it to
the canvas.  A throw of the `ImageData` constructor propagates. -/
def pixelDataToCanvas (pd : PixelData) : Except String Canvas :=
  let blankLen := pd.width * pd.height * 4
  let blank : Canvas :=
    { width := pd.width, height := pd.height
      pixels := List.replicate blankLen 0, ops := [] }
  if pd.data.length > 0 then
    let buf := pd.data.take blankLen ++ List.replicate (blankLen - pd.data.length) 0
    match mkImageData buf pd.width pd.height with
    | .ok img => .ok { blank with pixels := img }
    | .error e => .error e
  else
    .ok blank

/-- The `BLEND_MODE_MAP` lookup table: PSD blend-mode tag to canvas
`GlobalCompositeOperation`; `none` models a map miss (`undefined`). -/
def BLEND_MODE_MAP (s : String) : Option String :=
  if s = "normal" ∨ s = "pass through" ∨ s = "dissolve" then some "source-over"
  else if s = "multiply" then some "multiply"
  else if s = "screen" then some "screen"
  else if s = "overlay" then some "overlay"
  else if s = "darken" then some "darken"
  else if s = "lighten" then some "lighten"
  else if s = "color dodge" ∨ s = "linear dodge" then some "color-dodge"
  else if s = "color burn" ∨ s = "linear burn" then some "color-burn"
  else if s = "hard light" ∨ s = "vivid light" ∨ s = "linear light"
          ∨ s = "pin light" ∨ s = "hard mix" then some "hard-light"
  else if s = "soft light" then some "soft-light"
  else if s = "difference" ∨ s = "subtract" ∨ s = "divide" then some "difference"
  else if s = "exclusion" then some "exclusion"
  else if s = "hue" then some "hue"
  else if s = "saturation" then some "saturation"
  else if s = "color" then some "color"
  else if s = "luminosity" then some "luminosity"
  else if s = "darker color" then some "darken"
  else if s = "lighter color" then some "lighten"
  else none

/-- JS `a || b` on an optional string: `b` when `a` is `undefined` or the
empty string (falsy), else the string itself. -/
def jsOrString (a : Option String) (b : String) : String :=
  match a with
  | some s => if s = "" then b else s
  | none => b

/-- `BLEND_MODE_MAP[l.blendMode or "normal"] or "source-over"` of the source
(JS `||` on the map lookup result). -/
def effectiveCompositeOp (bm : Option String) : String :=
  (BLEND_MODE_MAP (jsOrString bm "normal")).getD "source-over"

mutual

/-- `renderLayersRaw`: iterates the sibling list from the last index down to
`0` (modelled as: draw operations of the tail first, then of the head) and
returns the draw operations appended to the context, or the first thrown
error.  Per layer: skip when `hidden` or `adjustment`; recurse when a
`children` array is present; otherwise paint `pixelDataToCanvas(l.imageData)`
when image data with positive dimensions is present. -/
def renderLayersRaw : List Layer → Except String (List DrawOp)
  | [] => .ok []
  | l :: rest =>
      match renderLayersRaw rest with
      | .error e => .error e
      | .ok opsRest =>
          match renderLayerRaw l with
          | .error e => .error e
          | .ok opsHead => .ok (opsRest ++ opsHead)
termination_by ls => sizeOf ls
decreasing_by
  all_goals simp_wf
  all_goals omega

/-- The body of one `renderLayersRaw` loop iteration, for layer `l`. -/
def renderLayerRaw (l : Layer) : Except String (List DrawOp) :=
  if l.hidden || l.adjustment then .ok []
  else
    match h : l.children with
    | some cs => renderLayersRaw cs
    | none =>
        match l.imageData with
        | some pd =>
            if pd.width > 0 ∧ pd.height > 0 then
              match pixelDataToCanvas pd with
              | .ok lc =>
                  .ok [{ image := lc.toImage, alphaNum := l.opacity.getD 255
                         compositeOp := effectiveCompositeOp l.blendMode
                         x := l.left.getD 0, y := l.top.getD 0 }]
              | .error e => .error e
            else .ok []
        | none => .ok []
termination_by sizeOf l
decreasing_by
  simp_wf
  cases l with
  | mk f1 f2 f3 f4 f5 f6 f7 f8 f9 =>
      simp only at h
      subst h
      simp
      omega

end

mutual

/-- `renderLayersCanvas`: same traversal as `renderLayersRaw`, but paints the
pre-composited per-layer canvas `l.canvas`; nothing in it can throw. -/
def renderLayersCanvas : List Layer → List DrawOp
  | [] => []
  | l :: rest => renderLayersCanvas rest ++ renderLayerCanvas l
termination_by ls => sizeOf ls
decreasing_by
  all_goals simp_wf
  all_goals omega

/-- The body of one `renderLayersCanvas` loop iteration, for layer `l`. -/
def renderLayerCanvas (l : Layer) : List DrawOp :=
  if l.hidden || l.adjustment then []
  else
    match h : l.children with
    | some cs => renderLayersCanvas cs
    | none =>
        match l.canvas with
        | some c =>
            [{ image := c.toImage, alphaNum := l.opacity.getD 255
               compositeOp := effectiveCompositeOp l.blendMode
               x := l.left.getD 0, y := l.top.getD 0 }]
        | none => []
termination_by sizeOf l
decreasing_by
  simp_wf
  cases l with
  | mk f1 f2 f3 f4 f5 f6 f7 f8 f9 =>
      simp only at h
      subst h
      simp
      omega

end

mutual

/-- `countLayers`: `0` for a missing list, otherwise
`layers.reduce((n, l) => n + 1 + countLayers(l.children), 0)`. -/
def countLayers : Option (List Layer) → Nat
  | none => 0
  | some ls => countLayersList ls
termination_by o => sizeOf o
decreasing_by
  all_goals simp_wf
  all_goals omega

/-- The fold inside `countLayers` over the layer list. -/
def countLayersList : List Layer → Nat
  | [] => 0
  | l :: rest => 1 + countLayers l.children + countLayersList rest
termination_by ls => sizeOf ls
decreasing_by
  all_goals simp_wf
  all_goals try omega
  all_goals
    cases l with
    | mk f1 f2 f3 f4 f5 f6 f7 f8 f9 =>
        simp
        omega

end

/-- `compositeRawLayers`: `null` when the document has no (falsy) width or
height or no non-empty `children` list; otherwise a `width × height` canvas
onto which `renderLayersRaw` has painted the children.  A throw from the
compositor propagates (it is caught by the `try` of the stage). -/
def compositeRawLayers (psd : Psd) : Except String (Option Canvas) :=
  if psd.width = 0 ∨ psd.height = 0 ∨ (psd.children.getD []).isEmpty then
    .ok none
  else
    match psd.children with
    | none => .ok none
    | some cs =>
        match renderLayersRaw cs with
        | .error e => .error e
        | .ok ops =>
            .ok (some { width := psd.width, height := psd.height
                        pixels := List.replicate (psd.width * psd.height * 4) 0
                        ops := ops })

/-- `compositeCanvasLayers`: as `compositeRawLayers` but painting with
`renderLayersCanvas`. -/
def compositeCanvasLayers (psd : Psd) : Option Canvas :=
  if psd.width = 0 ∨ psd.height = 0 ∨ (psd.children.getD []).isEmpty then
    none
  else
    match psd.children with
    | none => none
    | some cs =>
        some { width := psd.width, height := psd.height
               pixels := List.replicate (psd.width * psd.height * 4) 0
               ops := renderLayersCanvas cs }

/-- The four fidelity stages of the pipeline, in attempt order. -/
inductive RenderStage where
  | rawData
  | highFidelity
  | safeMode
  | composite
deriving Repr, DecidableEq

/-- The result record `PSDRenderResult`. -/
structure PSDRenderResult where
  canvas : Canvas
  stage : RenderStage
  layerCount : Nat
  width : Nat
  height : Nat

/-- `buildResult`: packs a surface with the stage identity, the recursive
layer count, and `psd.width || canvas.width` (falsy fallback). -/
def buildResult (canvas : Canvas) (stage : RenderStage) (psd : Psd) :
    PSDRenderResult :=
  { canvas := canvas, stage := stage
    layerCount := countLayers psd.children
    width := if psd.width ≠ 0 then psd.width else canvas.width
    height := if psd.height ≠ 0 then psd.height else canvas.height }

/-- The option record passed to `readPsd` (absent fields are `false`). -/
structure ReadOptions where
  useImageData : Bool := false
  skipThumbnail : Bool := false
  skipLinkedFilesData : Bool := false
  skipLayerImageData : Bool := false
  logMissingFeatures : Bool := false
deriving Repr, DecidableEq

/-- The external `ag-psd` parser: buffer and options to parsed document or
thrown error.  It is a parameter of the pipeline. -/
def ReadPsd : Type :=
  List Nat → ReadOptions → Except String Psd

/-- Options of stage 0 (`raw-data`). -/
def stage0Opts : ReadOptions :=
  { useImageData := true, skipThumbnail := true, logMissingFeatures := true }

/-- Options of stage 1 (`high-fidelity`). -/
def stage1Opts : ReadOptions :=
  { skipThumbnail := true, logMissingFeatures := true }

/-- Options of stage 2 (`safe-mode`). -/
def stage2Opts : ReadOptions :=
  { skipThumbnail := true, skipLinkedFilesData := true
    logMissingFeatures := true }

/-- Options of stage 3 (`composite`). -/
def stage3Opts : ReadOptions :=
  { skipLayerImageData := true, skipThumbnail := true
    skipLinkedFilesData := true }

/-- Stage 0 (`raw-data`): parse with `useImageData`; if the document carries
`imageData` and truthy width and height, the result surface is
`pixelDataToCanvas(psd.imageData)`; otherwise the manual raw compositor.
`none` models falling through to the next stage, whether by a thrown error
(caught by the `try` of the stage) or by producing no surface. -/
def stage0Attempt (rp : ReadPsd) (buffer : List Nat) : Option PSDRenderResult :=
  match rp buffer stage0Opts with
  | .error _ => none
  | .ok psd =>
      match psd.imageData with
      | some pd =>
          if psd.width ≠ 0 ∧ psd.height ≠ 0 then
            match pixelDataToCanvas pd with
            | .ok c => some (buildResult c .rawData psd)
            | .error _ => none
          else
            match compositeRawLayers psd with
            | .ok (some c) => some (buildResult c .rawData psd)
            | _ => none
      | none =>
          match compositeRawLayers psd with
          | .ok (some c) => some (buildResult c .rawData psd)
          | _ => none

/-- Stage 1 (`high-fidelity`): parse without `useImageData`; use the
pre-composited document canvas if present, else the manual canvas
compositor. -/
def stage1Attempt (rp : ReadPsd) (buffer : List Nat) : Option PSDRenderResult :=
  match rp buffer stage1Opts with
  | .error _ => none
  | .ok psd =>
      match psd.canvas with
      | some c => some (buildResult c .highFidelity psd)
      | none =>
          match compositeCanvasLayers psd with
          | some c => some (buildResult c .highFidelity psd)
          | none => none

/-- Stage 2 (`safe-mode`): additionally skip linked-file data; only the
document canvas is used, no manual compositing. -/
def stage2Attempt (rp : ReadPsd) (buffer : List Nat) : Option PSDRenderResult :=
  match rp buffer stage2Opts with
  | .error _ => none
  | .ok psd =>
      match psd.canvas with
      | some c => some (buildResult c .safeMode psd)
      | none => none

/-- Stage 3 (`composite`): skip all per-layer image data; only the flattened
document canvas is used. -/
def stage3Attempt (rp : ReadPsd) (buffer : List Nat) : Option PSDRenderResult :=
  match rp buffer stage3Opts with
  | .error _ => none
  | .ok psd =>
      match psd.canvas with
      | some c => some (buildResult c .composite psd)
      | none => none

/-- The error thrown for a PDF buffer. -/
def pdfErrorMsg : String := "This is a PDF file. Use the PDF Viewer tool."

/-- The error thrown for a non-PSD, non-PDF signature. -/
def notPsdErrorMsg : String := "Not a valid PSD file."

/-- The terminal error after all four stages fail. -/
def unsupportedErrorMsg : String :=
  "Unsupported PSD structure. Try saving with \"Maximize Compatibility\" in Photoshop."

/-- Big-endian `getUint32(0)` over the first four bytes of the buffer. -/
def readBE32 (buffer : List Nat) : Nat :=
  match buffer with
  | b0 :: b1 :: b2 :: b3 :: _ =>
      ((b0 % 256) * 16777216) + ((b1 % 256) * 65536) + ((b2 % 256) * 256) + (b3 % 256)
  | _ => 0

/-- The PDF magic number `0x25504446` (`%PDF`). -/
def PDF_SIG : Nat := 0x25504446

/-- The PSD/PSB magic number `0x38425053` (`8BPS`). -/
def PSD_SIG : Nat := 0x38425053

/-- The stage cascade after signature validation: the first stage returning
a result is terminal; when all four return `none` the terminal
unsupported-structure error is thrown. -/
def runStages (rp : ReadPsd) (buffer : List Nat) :
    Except String PSDRenderResult :=
  match stage0Attempt rp buffer with
  | some r => .ok r
  | none =>
      match stage1Attempt rp buffer with
      | some r => .ok r
      | none =>
          match stage2Attempt rp buffer with
          | some r => .ok r
          | none =>
              match stage3Attempt rp buffer with
              | some r => .ok r
              | none => .error unsupportedErrorMsg

/-- `renderPSDToCanvas`: when the buffer has at least 4 bytes, validate the
magic number (`%PDF` throws the wrong-tool error, anything other than `8BPS`
throws the invalid-PSD error); then run the four-stage cascade. -/
def renderPSDToCanvas (rp : ReadPsd) (buffer : List Nat) :
    Except String PSDRenderResult :=
  if 4 ≤ buffer.length then
    if readBE32 buffer = PDF_SIG then .error pdfErrorMsg
    else if readBE32 buffer ≠ PSD_SIG then .error notPsdErrorMsg
    else runStages rp buffer
  else runStages rp buffer

mutual

/-- Specification-side count of one node of the layer tree, following the
words of the spec: every node (leaf layer or group) counts as one, counted
recursively over all children.  Written independently of `countLayers` for
comparison with it. -/
def layerNodes (l : Layer) : Nat :=
  1 + forestNodes (l.children.getD [])
termination_by sizeOf l
decreasing_by
  simp_wf
  cases l with
  | mk f1 f2 f3 f4 f5 f6 f7 f8 f9 =>
      cases f3 <;> simp <;> omega

/-- Specification-side count of all nodes of a forest of layer trees. -/
def forestNodes : List Layer → Nat
  | [] => 0
  | l :: rest => layerNodes l + forestNodes rest
termination_by ls => sizeOf ls
decreasing_by
  all_goals simp_wf
  all_goals omega

end

/-- A parser stand-in that throws on every input (every stage falls
through). -/
def rpFail : ReadPsd := fun _ _ => .error "parse failed"

/-- A concrete surface used by the pipeline fixtures. -/
def canvasW : Canvas :=
  { width := 3, height := 2, pixels := List.replicate 24 0, ops := [] }

/-- A concrete parsed document carrying only a pre-composited canvas. -/
def psdW : Psd :=
  { width := 3, height := 2, children := none, imageData := none
    canvas := some canvasW }

/-- A parser stand-in that throws exactly when raw image data is requested
(stage 0 fails, stage 1 succeeds). -/
def rpStage1 : ReadPsd := fun _ opts =>
  if opts.useImageData then .error "raw parse failed" else .ok psdW

/-- A 4-byte buffer holding exactly the PSD signature `8BPS`. -/
def bufPSD : List Nat := [0x38, 0x42, 0x50, 0x53]

/-- A 4-byte buffer holding exactly the PDF signature `%PDF`. -/
def bufPDF : List Nat := [0x25, 0x50, 0x44, 0x46]

/-- A parser stand-in distinct from `rpFail` that agrees with it on the
empty buffer. -/
def rpFailAlt : ReadPsd := fun buf _ =>
  if buf.length = 0 then .error "parse failed" else .ok psdW

/-- Concrete 1×1 pixel data for compositor fixtures. -/
def pdLeaf : PixelData := { width := 1, height := 1, data := [1, 2, 3, 4] }

/-- Concrete 1×1 canvas for compositor fixtures. -/
def canvasLeaf : Canvas :=
  { width := 1, height := 1, pixels := [9, 9, 9, 9], ops := [] }

/-- A visible leaf layer with pixel data and a canvas. -/
def leafW : Layer :=
  { hidden := false, adjustment := false, children := none
    imageData := some pdLeaf, canvas := some canvasLeaf
    opacity := some 128, blendMode := some "multiply"
    left := some 2, top := some 3 }

/-- A hidden leaf layer. -/
def hiddenW : Layer :=
  { hidden := true, adjustment := false, children := none
    imageData := some pdLeaf, canvas := some canvasLeaf
    opacity := none, blendMode := none, left := none, top := none }

/-- A visible group with one child, which also carries its own pixel data
and canvas (which the compositors must ignore). -/
def groupW : Layer :=
  { hidden := false, adjustment := false, children := some [leafW]
    imageData := some pdLeaf, canvas := some canvasLeaf
    opacity := some 200, blendMode := some "screen"
    left := some 5, top := some 6 }

/-- A visible layer carrying an empty `children` array together with its
own pixel data and canvas. -/
def emptyGroupW : Layer :=
  { hidden := false, adjustment := false, children := some []
    imageData := some pdLeaf, canvas := some canvasLeaf
    opacity := some 10, blendMode := some "overlay"
    left := some 1, top := some 1 }

/-- The draw operation painted for `leafW` by the raw compositor. -/
def rawOpW : DrawOp :=
  { image := { width := 1, height := 1, pixels := [1, 2, 3, 4] }
    alphaNum := 128, compositeOp := "multiply", x := 2, y := 3 }

theorem mkImageData_full {w h : Nat} {data : List Nat} (hw : 0 < w)
    (hh : 0 < h) (hlen : data.length = w * h * 4) :
    mkImageData data w h = .ok data := by
  have hpos : 0 < w * h * 4 := by positivity
  have h4 : data.length / 4 = w * h := by omega
  have hmodw : (data.length / 4) % w = 0 := by
    rw [h4]; exact Nat.mul_mod_right w h
  have hdiv : data.length / 4 / w = h := by
    rw [h4, Nat.mul_div_cancel_left h hw]
  unfold mkImageData
  rw [if_neg (by omega), if_neg (by push_neg; exact ⟨hw.ne', hmodw⟩),
    if_neg (by simp [hdiv])]

theorem pixelDataToCanvas_ok (pd : PixelData)
    (hok : (0 < pd.width ∧ 0 < pd.height) ∨ pd.data = []) :
    pixelDataToCanvas pd = .ok
      { width := pd.width, height := pd.height
        pixels := pd.data.take (pd.width * pd.height * 4) ++
          List.replicate (pd.width * pd.height * 4 - pd.data.length) 0
        ops := [] } := by
  rcases hok with ⟨hw, hh⟩ | hd
  · by_cases hlen : pd.data.length > 0
    · have hbuf : (pd.data.take (pd.width * pd.height * 4) ++
          List.replicate (pd.width * pd.height * 4 - pd.data.length) 0).length
          = pd.width * pd.height * 4 := by
        simp [List.length_take, List.length_append, List.length_replicate]
        omega
      unfold pixelDataToCanvas
      rw [if_pos hlen]
      dsimp only
      rw [mkImageData_full hw hh hbuf]
    · have hnil : pd.data = [] := List.eq_nil_of_length_eq_zero (by omega)
      unfold pixelDataToCanvas
      rw [if_neg (by omega)]
      simp [hnil]
  · unfold pixelDataToCanvas
    rw [if_neg (by simp [hd])]
    simp [hd]

/-- C9: the claim that `pixelDataToCanvas` never raises an error is false:
with declared width `0` and non-empty data the `ImageData` constructor
throws (`InvalidStateError`), since the zeroed buffer has length
`0 * 1 * 4 = 0`. -/
theorem pixelDataToCanvas_zero_width_error :
    pixelDataToCanvas { width := 0, height := 1, data := [0, 0, 0, 0] } =
      .error "InvalidStateError" := by
  rfl

/-- C9 (amended): for every pixel-data record whose declared width and
height are both positive — or whose data is empty — `pixelDataToCanvas`
raises no error and returns a canvas of exactly the declared width and
height whose pixel buffer is the data truncated to `width * height * 4`
bytes, zero-filled (transparent) beyond the data length; in particular
empty data writes no pixels.  (When the data is non-empty and
`width * height = 0` the `ImageData` constructor throws instead.) -/
theorem pixelDataToCanvas_total_over_size_mismatch (pd : PixelData)
    (hok : (0 < pd.width ∧ 0 < pd.height) ∨ pd.data = []) :
    pixelDataToCanvas pd = .ok
      { width := pd.width, height := pd.height
        pixels := pd.data.take (pd.width * pd.height * 4) ++
          List.replicate (pd.width * pd.height * 4 - pd.data.length) 0
        ops := [] } :=
  pixelDataToCanvas_ok pd hok

theorem pixelDataToCanvas_total_over_size_mismatch_witness :
    pixelDataToCanvas { width := 2, height := 1, data := [7] } =
      .ok { width := 2, height := 1, pixels := [7, 0, 0, 0, 0, 0, 0, 0]
            ops := [] } :=
  pixelDataToCanvas_total_over_size_mismatch
    { width := 2, height := 1, data := [7] } (Or.inl (by decide))

/-- C2: for every buffer of at least 4 bytes the 4-byte magic number is
validated before any stage runs (the outcome holds for every parser): the
PDF signature yields the specific wrong-tool error, any signature that is
neither PDF nor PSD yields the distinct generic invalid-PSD error. -/
theorem renderPSDToCanvas_magic_discrimination (rp : ReadPsd)
    (buf : List Nat) (hlen : 4 ≤ buf.length) :
    (readBE32 buf = PDF_SIG → renderPSDToCanvas rp buf = .error pdfErrorMsg) ∧
    (readBE32 buf ≠ PDF_SIG → readBE32 buf ≠ PSD_SIG →
      renderPSDToCanvas rp buf = .error notPsdErrorMsg) ∧
    pdfErrorMsg ≠ notPsdErrorMsg := by
  refine ⟨?_, ?_, by decide⟩
  · intro h
    unfold renderPSDToCanvas
    rw [if_pos hlen, if_pos h]
  · intro h1 h2
    unfold renderPSDToCanvas
    rw [if_pos hlen, if_neg h1, if_pos h2]

theorem renderPSDToCanvas_magic_discrimination_witness :
    renderPSDToCanvas rpFail bufPDF = .error pdfErrorMsg ∧
    renderPSDToCanvas rpFail [0, 1, 2, 3] = .error notPsdErrorMsg :=
  ⟨(renderPSDToCanvas_magic_discrimination rpFail bufPDF (by decide)).1
      (by decide),
   (renderPSDToCanvas_magic_discrimination rpFail [0, 1, 2, 3]
      (by decide)).2.1 (by decide) (by decide)⟩

theorem stage0Attempt_shape {rp : ReadPsd} {buf : List Nat}
    {r : PSDRenderResult} (h : stage0Attempt rp buf = some r) :
    ∃ c psd, r = buildResult c RenderStage.rawData psd := by
  unfold stage0Attempt at h
  repeat' split at h
  all_goals first
    | (injection h with h2; exact ⟨_, _, h2.symm⟩)
    | (cases h)

theorem stage1Attempt_shape {rp : ReadPsd} {buf : List Nat}
    {r : PSDRenderResult} (h : stage1Attempt rp buf = some r) :
    ∃ c psd, r = buildResult c RenderStage.highFidelity psd := by
  unfold stage1Attempt at h
  repeat' split at h
  all_goals first
    | (injection h with h2; exact ⟨_, _, h2.symm⟩)
    | (cases h)

theorem stage2Attempt_shape {rp : ReadPsd} {buf : List Nat}
    {r : PSDRenderResult} (h : stage2Attempt rp buf = some r) :
    ∃ c psd, r = buildResult c RenderStage.safeMode psd := by
  unfold stage2Attempt at h
  repeat' split at h
  all_goals first
    | (injection h with h2; exact ⟨_, _, h2.symm⟩)
    | (cases h)

theorem stage3Attempt_shape {rp : ReadPsd} {buf : List Nat}
    {r : PSDRenderResult} (h : stage3Attempt rp buf = some r) :
    ∃ c psd, r = buildResult c RenderStage.composite psd := by
  unfold stage3Attempt at h
  repeat' split at h
  all_goals first
    | (injection h with h2; exact ⟨_, _, h2.symm⟩)
    | (cases h)

theorem runStages_all_none {rp : ReadPsd} {buf : List Nat}
    (h0 : stage0Attempt rp buf = none) (h1 : stage1Attempt rp buf = none)
    (h2 : stage2Attempt rp buf = none) (h3 : stage3Attempt rp buf = none) :
    runStages rp buf = .error unsupportedErrorMsg := by
  unfold runStages
  rw [h0, h1, h2, h3]

theorem runStages_cases (rp : ReadPsd) (buf : List Nat) :
    (stage0Attempt rp buf = none ∧ stage1Attempt rp buf = none ∧
     stage2Attempt rp buf = none ∧ stage3Attempt rp buf = none ∧
     runStages rp buf = .error unsupportedErrorMsg) ∨
    (∃ r, runStages rp buf = .ok r ∧
       (stage0Attempt rp buf = some r ∨ stage1Attempt rp buf = some r ∨
        stage2Attempt rp buf = some r ∨ stage3Attempt rp buf = some r)) := by
  cases h0 : stage0Attempt rp buf with
  | some r =>
      exact Or.inr ⟨r, by unfold runStages; rw [h0], Or.inl rfl⟩
  | none =>
      cases h1 : stage1Attempt rp buf with
      | some r =>
          exact Or.inr ⟨r, by unfold runStages; rw [h0, h1],
            Or.inr (Or.inl rfl)⟩
      | none =>
          cases h2 : stage2Attempt rp buf with
          | some r =>
              exact Or.inr ⟨r, by unfold runStages; rw [h0, h1, h2],
                Or.inr (Or.inr (Or.inl rfl))⟩
          | none =>
              cases h3 : stage3Attempt rp buf with
              | some r =>
                  exact Or.inr ⟨r, by unfold runStages; rw [h0, h1, h2, h3],
                    Or.inr (Or.inr (Or.inr rfl))⟩
              | none =>
                  exact Or.inl ⟨rfl, rfl, rfl, rfl,
                    runStages_all_none h0 h1 h2 h3⟩

theorem runStages_conds (rp : ReadPsd) (buf : List Nat) :
    (∀ e, runStages rp buf = .error e → e = unsupportedErrorMsg) ∧
    ((∃ e, runStages rp buf = .error e) ↔
      stage0Attempt rp buf = none ∧ stage1Attempt rp buf = none ∧
      stage2Attempt rp buf = none ∧ stage3Attempt rp buf = none) := by
  rcases runStages_cases rp buf with
    ⟨h0, h1, h2, h3, herr⟩ | ⟨r, hok, _⟩
  · constructor
    · intro e he
      rw [herr] at he
      exact (Except.error.injEq _ _ ▸ he).symm
    · exact ⟨fun _ => ⟨h0, h1, h2, h3⟩, fun _ => ⟨_, herr⟩⟩
  · constructor
    · intro e he
      rw [hok] at he
      cases he
    · constructor
      · rintro ⟨e, he⟩
        rw [hok] at he
        cases he
      · rintro ⟨h0, h1, h2, h3⟩
        rw [runStages_all_none h0 h1 h2 h3] at hok
        cases hok

theorem renderPSDToCanvas_valid_sig (rp : ReadPsd) (buf : List Nat)
    (hlen : 4 ≤ buf.length) (hsig : readBE32 buf = PSD_SIG) :
    renderPSDToCanvas rp buf = runStages rp buf := by
  unfold renderPSDToCanvas
  rw [if_pos hlen, if_neg (by rw [hsig]; decide), if_neg (by simp [hsig])]

theorem renderPSDToCanvas_short (rp : ReadPsd) (buf : List Nat)
    (hlen : buf.length < 4) :
    renderPSDToCanvas rp buf = runStages rp buf := by
  unfold renderPSDToCanvas
  rw [if_neg (by omega)]

/-- C1: on a validated PSD buffer the four stage attempts are tried in the
fixed order raw-data, high-fidelity, safe-mode, composite; stage N+1 is
consulted exactly when every stage up to N produced no result (threw or
yielded no surface); the first stage with a result is terminal, its result
is returned with that stage identity in the `stage` field; exhaustion
throws the terminal error; and each stage attempt depends only on its own
single parse of the same input buffer with its own option set. -/
theorem renderPSDToCanvas_stage_cascade (rp : ReadPsd) (buf : List Nat)
    (hlen : 4 ≤ buf.length) (hsig : readBE32 buf = PSD_SIG) :
    (∀ r, stage0Attempt rp buf = some r →
       renderPSDToCanvas rp buf = .ok r ∧ r.stage = RenderStage.rawData) ∧
    (stage0Attempt rp buf = none →
     ∀ r, stage1Attempt rp buf = some r →
       renderPSDToCanvas rp buf = .ok r ∧
       r.stage = RenderStage.highFidelity) ∧
    (stage0Attempt rp buf = none → stage1Attempt rp buf = none →
     ∀ r, stage2Attempt rp buf = some r →
       renderPSDToCanvas rp buf = .ok r ∧ r.stage = RenderStage.safeMode) ∧
    (stage0Attempt rp buf = none → stage1Attempt rp buf = none →
     stage2Attempt rp buf = none →
     ∀ r, stage3Attempt rp buf = some r →
       renderPSDToCanvas rp buf = .ok r ∧
       r.stage = RenderStage.composite) ∧
    (stage0Attempt rp buf = none → stage1Attempt rp buf = none →
     stage2Attempt rp buf = none → stage3Attempt rp buf = none →
       renderPSDToCanvas rp buf = .error unsupportedErrorMsg) ∧
    (∀ rp₂ : ReadPsd,
       (rp buf stage0Opts = rp₂ buf stage0Opts →
          stage0Attempt rp buf = stage0Attempt rp₂ buf) ∧
       (rp buf stage1Opts = rp₂ buf stage1Opts →
          stage1Attempt rp buf = stage1Attempt rp₂ buf) ∧
       (rp buf stage2Opts = rp₂ buf stage2Opts →
          stage2Attempt rp buf = stage2Attempt rp₂ buf) ∧
       (rp buf stage3Opts = rp₂ buf stage3Opts →
          stage3Attempt rp buf = stage3Attempt rp₂ buf)) := by
  have hrun : renderPSDToCanvas rp buf = runStages rp buf :=
    renderPSDToCanvas_valid_sig rp buf hlen hsig
  refine ⟨?_, ?_, ?_, ?_, ?_, ?_⟩
  · intro r h0
    refine ⟨by rw [hrun]; unfold runStages; rw [h0], ?_⟩
    obtain ⟨c, psd, rfl⟩ := stage0Attempt_shape h0
    rfl
  · intro h0 r h1
    refine ⟨by rw [hrun]; unfold runStages; rw [h0, h1], ?_⟩
    obtain ⟨c, psd, rfl⟩ := stage1Attempt_shape h1
    rfl
  · intro h0 h1 r h2
    refine ⟨by rw [hrun]; unfold runStages; rw [h0, h1, h2], ?_⟩
    obtain ⟨c, psd, rfl⟩ := stage2Attempt_shape h2
    rfl
  · intro h0 h1 h2 r h3
    refine ⟨by rw [hrun]; unfold runStages; rw [h0, h1, h2, h3], ?_⟩
    obtain ⟨c, psd, rfl⟩ := stage3Attempt_shape h3
    rfl
  · intro h0 h1 h2 h3
    rw [hrun]
    exact runStages_all_none h0 h1 h2 h3
  · intro rp₂
    refine ⟨?_, ?_, ?_, ?_⟩
    · intro h; unfold stage0Attempt; rw [h]
    · intro h; unfold stage1Attempt; rw [h]
    · intro h; unfold stage2Attempt; rw [h]
    · intro h; unfold stage3Attempt; rw [h]

theorem renderPSDToCanvas_stage_cascade_witness :
    renderPSDToCanvas rpStage1 bufPSD =
      .ok (buildResult canvasW RenderStage.highFidelity psdW) ∧
    (buildResult canvasW RenderStage.highFidelity psdW).stage =
      RenderStage.highFidelity :=
  (renderPSDToCanvas_stage_cascade rpStage1 bufPSD (by decide)
    (by decide)).2.1 rfl
    (buildResult canvasW RenderStage.highFidelity psdW) rfl

/-- C6: the pipeline throws exactly when either the signature validation
fails (for a 4-byte-or-longer buffer with a non-PSD signature) or all four
stage attempts produce nothing; the only error values are the three fixed
user-facing messages, so no internal stage failure is ever surfaced; and
when the stages are exhausted on a buffer that passes (or skips)
validation, the single terminal error is the one carrying the
maximum-compatibility remediation. -/
theorem renderPSDToCanvas_error_conditions (rp : ReadPsd) (buf : List Nat) :
    (∀ e, renderPSDToCanvas rp buf = .error e →
       e = pdfErrorMsg ∨ e = notPsdErrorMsg ∨ e = unsupportedErrorMsg) ∧
    ((∃ e, renderPSDToCanvas rp buf = .error e) ↔
       (4 ≤ buf.length ∧
         (readBE32 buf = PDF_SIG ∨ readBE32 buf ≠ PSD_SIG)) ∨
       (stage0Attempt rp buf = none ∧ stage1Attempt rp buf = none ∧
        stage2Attempt rp buf = none ∧ stage3Attempt rp buf = none)) ∧
    (¬(4 ≤ buf.length ∧
        (readBE32 buf = PDF_SIG ∨ readBE32 buf ≠ PSD_SIG)) →
     stage0Attempt rp buf = none → stage1Attempt rp buf = none →
     stage2Attempt rp buf = none → stage3Attempt rp buf = none →
     renderPSDToCanvas rp buf = .error unsupportedErrorMsg) := by
  by_cases hlen : 4 ≤ buf.length
  · by_cases hpdf : readBE32 buf = PDF_SIG
    · have hres : renderPSDToCanvas rp buf = .error pdfErrorMsg := by
        unfold renderPSDToCanvas
        rw [if_pos hlen, if_pos hpdf]
      refine ⟨?_, ?_, ?_⟩
      · intro e he
        rw [hres] at he
        exact Or.inl (Except.error.injEq _ _ ▸ he).symm
      · exact ⟨fun _ => Or.inl ⟨hlen, Or.inl hpdf⟩, fun _ => ⟨_, hres⟩⟩
      · intro hno
        exact absurd ⟨hlen, Or.inl hpdf⟩ hno
    · by_cases hpsd : readBE32 buf = PSD_SIG
      · have hrun : renderPSDToCanvas rp buf = runStages rp buf :=
          renderPSDToCanvas_valid_sig rp buf hlen hpsd
        obtain ⟨hmsg, hiff⟩ := runStages_conds rp buf
        refine ⟨?_, ?_, ?_⟩
        · intro e he
          rw [hrun] at he
          exact Or.inr (Or.inr (hmsg e he))
        · rw [hrun]
          constructor
          · intro hex
            exact Or.inr (hiff.mp hex)
          · rintro (⟨_, hbad | hbad⟩ | hall)
            · exact absurd hbad hpdf
            · exact absurd hpsd hbad
            · exact hiff.mpr hall
        · intro _ h0 h1 h2 h3
          rw [hrun]
          exact runStages_all_none h0 h1 h2 h3
      · have hres : renderPSDToCanvas rp buf = .error notPsdErrorMsg := by
          unfold renderPSDToCanvas
          rw [if_pos hlen, if_neg hpdf, if_pos hpsd]
        refine ⟨?_, ?_, ?_⟩
        · intro e he
          rw [hres] at he
          exact Or.inr (Or.inl (Except.error.injEq _ _ ▸ he).symm)
        · exact ⟨fun _ => Or.inl ⟨hlen, Or.inr hpsd⟩, fun _ => ⟨_, hres⟩⟩
        · intro hno
          exact absurd ⟨hlen, Or.inr hpsd⟩ hno
  · have hrun : renderPSDToCanvas rp buf = runStages rp buf :=
      renderPSDToCanvas_short rp buf (by omega)
    obtain ⟨hmsg, hiff⟩ := runStages_conds rp buf
    refine ⟨?_, ?_, ?_⟩
    · intro e he
      rw [hrun] at he
      exact Or.inr (Or.inr (hmsg e he))
    · rw [hrun]
      constructor
      · intro hex
        exact Or.inr (hiff.mp hex)
      · rintro (⟨hbad, _⟩ | hall)
        · exact absurd hbad hlen
        · exact hiff.mpr hall
    · intro _ h0 h1 h2 h3
      rw [hrun]
      exact runStages_all_none h0 h1 h2 h3

theorem renderPSDToCanvas_error_conditions_witness :
    ∃ e, renderPSDToCanvas rpFail bufPSD = .error e :=
  (renderPSDToCanvas_error_conditions rpFail bufPSD).2.1.mpr
    (Or.inr ⟨rfl, rfl, rfl, rfl⟩)

/-- C7: the pipeline is a pure function of the byte buffer and of what the
parser returns on that buffer: two parsers that agree on the buffer (for
every option set) give identical stage outcomes and an identical final
result-or-error, so re-running the pipeline or any individual stage on the
same read-only buffer is deterministic. -/
theorem renderPSDToCanvas_deterministic (rp rp₂ : ReadPsd) (buf : List Nat)
    (h : ∀ o, rp buf o = rp₂ buf o) :
    stage0Attempt rp buf = stage0Attempt rp₂ buf ∧
    stage1Attempt rp buf = stage1Attempt rp₂ buf ∧
    stage2Attempt rp buf = stage2Attempt rp₂ buf ∧
    stage3Attempt rp buf = stage3Attempt rp₂ buf ∧
    renderPSDToCanvas rp buf = renderPSDToCanvas rp₂ buf := by
  have h0 : stage0Attempt rp buf = stage0Attempt rp₂ buf := by
    unfold stage0Attempt; rw [h stage0Opts]
  have h1 : stage1Attempt rp buf = stage1Attempt rp₂ buf := by
    unfold stage1Attempt; rw [h stage1Opts]
  have h2 : stage2Attempt rp buf = stage2Attempt rp₂ buf := by
    unfold stage2Attempt; rw [h stage2Opts]
  have h3 : stage3Attempt rp buf = stage3Attempt rp₂ buf := by
    unfold stage3Attempt; rw [h stage3Opts]
  refine ⟨h0, h1, h2, h3, ?_⟩
  unfold renderPSDToCanvas runStages
  rw [h0, h1, h2, h3]

theorem renderPSDToCanvas_deterministic_witness :
    stage0Attempt rpFail [] = stage0Attempt rpFailAlt [] ∧
    stage1Attempt rpFail [] = stage1Attempt rpFailAlt [] ∧
    stage2Attempt rpFail [] = stage2Attempt rpFailAlt [] ∧
    stage3Attempt rpFail [] = stage3Attempt rpFailAlt [] ∧
    renderPSDToCanvas rpFail [] = renderPSDToCanvas rpFailAlt [] :=
  renderPSDToCanvas_deterministic rpFail rpFailAlt [] (fun _ => rfl)

/-- C8: for a buffer shorter than 4 bytes the magic-number validation is
skipped: the pipeline goes straight to the stage cascade, never raises the
PDF wrong-tool error nor the invalid-PSD error, and any failure is exactly
the terminal unsupported-structure error, thrown precisely when all four
stage attempts produce nothing. -/
theorem renderPSDToCanvas_short_buffer (rp : ReadPsd) (buf : List Nat)
    (hlen : buf.length < 4) :
    renderPSDToCanvas rp buf = runStages rp buf ∧
    (∀ e, renderPSDToCanvas rp buf = .error e → e = unsupportedErrorMsg) ∧
    renderPSDToCanvas rp buf ≠ .error pdfErrorMsg ∧
    renderPSDToCanvas rp buf ≠ .error notPsdErrorMsg ∧
    (renderPSDToCanvas rp buf = .error unsupportedErrorMsg ↔
      stage0Attempt rp buf = none ∧ stage1Attempt rp buf = none ∧
      stage2Attempt rp buf = none ∧ stage3Attempt rp buf = none) := by
  have hrun : renderPSDToCanvas rp buf = runStages rp buf :=
    renderPSDToCanvas_short rp buf hlen
  obtain ⟨hmsg, hiff⟩ := runStages_conds rp buf
  have hany : ∀ e, renderPSDToCanvas rp buf = .error e →
      e = unsupportedErrorMsg := by
    intro e he
    rw [hrun] at he
    exact hmsg e he
  refine ⟨hrun, hany, ?_, ?_, ?_⟩
  · intro he
    have : pdfErrorMsg = unsupportedErrorMsg := hany _ he
    exact absurd this (by decide)
  · intro he
    have : notPsdErrorMsg = unsupportedErrorMsg := hany _ he
    exact absurd this (by decide)
  · constructor
    · intro he
      rw [hrun] at he
      exact hiff.mp ⟨_, he⟩
    · rintro ⟨h0, h1, h2, h3⟩
      rw [hrun]
      exact runStages_all_none h0 h1 h2 h3

theorem renderPSDToCanvas_short_buffer_witness :
    renderPSDToCanvas rpFail [1, 2, 3] = .error unsupportedErrorMsg :=
  (renderPSDToCanvas_short_buffer rpFail [1, 2, 3]
    (by decide)).2.2.2.2.mpr ⟨rfl, rfl, rfl, rfl⟩

theorem countLayersList_eq_forestNodes :
    ∀ ls : List Layer, countLayersList ls = forestNodes ls
  | [] => by
      rw [countLayersList, forestNodes]
  | l :: rest => by
      rw [countLayersList, forestNodes, countLayersList_eq_forestNodes rest,
        layerNodes]
      have hchild : countLayers l.children =
          forestNodes (l.children.getD []) := by
        cases hc : l.children with
        | none =>
            rw [countLayers]
            show (0 : Nat) = forestNodes []
            rw [forestNodes]
        | some cs =>
            rw [countLayers, countLayersList_eq_forestNodes cs]
            rfl
      omega
termination_by ls => sizeOf ls
decreasing_by
  all_goals simp_wf
  all_goals try omega
  all_goals
    cases l with
    | mk f1 f2 f3 f4 f5 f6 f7 f8 f9 =>
        simp only at hc
        subst hc
        simp
        omega

theorem countLayers_eq_forestNodes (o : Option (List Layer)) :
    countLayers o = forestNodes (o.getD []) := by
  cases o with
  | none =>
      rw [countLayers]
      show (0 : Nat) = forestNodes []
      rw [forestNodes]
  | some ls => rw [countLayers, countLayersList_eq_forestNodes ls]; rfl

theorem renderPSDToCanvas_ok_stage {rp : ReadPsd} {buf : List Nat}
    {r : PSDRenderResult} (h : renderPSDToCanvas rp buf = .ok r) :
    stage0Attempt rp buf = some r ∨ stage1Attempt rp buf = some r ∨
    stage2Attempt rp buf = some r ∨ stage3Attempt rp buf = some r := by
  have hrun : runStages rp buf = .ok r := by
    unfold renderPSDToCanvas at h
    split at h
    · split at h
      · cases h
      · split at h
        · cases h
        · exact h
    · exact h
  rcases runStages_cases rp buf with ⟨_, _, _, _, herr⟩ | ⟨r2, hok, hst⟩
  · rw [herr] at hrun
    cases hrun
  · have : r2 = r := by
      have h2 := hok.symm.trans hrun
      injection h2
    subst this
    exact hst

/-- C3: the `layerCount` of every result built by `buildResult` equals the
total number of nodes — leaf layers plus groups, counted recursively over
all children — of the parsed layer tree (independent spec-side counter
`forestNodes`); and every result the pipeline returns is built that way. -/
theorem layerCount_counts_all_nodes :
    (∀ (c : Canvas) (st : RenderStage) (psd : Psd),
       (buildResult c st psd).layerCount =
         forestNodes (psd.children.getD [])) ∧
    (∀ (rp : ReadPsd) (buf : List Nat) (r : PSDRenderResult),
       renderPSDToCanvas rp buf = .ok r →
       ∃ c st psd, r = buildResult c st psd ∧
         r.layerCount = forestNodes (psd.children.getD [])) := by
  have hbuild : ∀ (c : Canvas) (st : RenderStage) (psd : Psd),
      (buildResult c st psd).layerCount =
        forestNodes (psd.children.getD []) := by
    intro c st psd
    show countLayers psd.children = _
    exact countLayers_eq_forestNodes psd.children
  refine ⟨hbuild, ?_⟩
  intro rp buf r h
  rcases renderPSDToCanvas_ok_stage h with h0 | h1 | h2 | h3
  · obtain ⟨c, psd, rfl⟩ := stage0Attempt_shape h0
    exact ⟨c, _, psd, rfl, hbuild c _ psd⟩
  · obtain ⟨c, psd, rfl⟩ := stage1Attempt_shape h1
    exact ⟨c, _, psd, rfl, hbuild c _ psd⟩
  · obtain ⟨c, psd, rfl⟩ := stage2Attempt_shape h2
    exact ⟨c, _, psd, rfl, hbuild c _ psd⟩
  · obtain ⟨c, psd, rfl⟩ := stage3Attempt_shape h3
    exact ⟨c, _, psd, rfl, hbuild c _ psd⟩

theorem layerCount_counts_all_nodes_witness :
    ∃ c st psd,
      buildResult canvasW RenderStage.highFidelity psdW =
        buildResult c st psd ∧
      (buildResult canvasW RenderStage.highFidelity psdW).layerCount =
        forestNodes (psd.children.getD []) :=
  layerCount_counts_all_nodes.2 rpStage1 bufPSD
    (buildResult canvasW RenderStage.highFidelity psdW) rfl

theorem renderLayersRaw_cons (l : Layer) (rest : List Layer)
    {opsTail opsHead : List DrawOp}
    (ht : renderLayersRaw rest = .ok opsTail)
    (hh : renderLayerRaw l = .ok opsHead) :
    renderLayersRaw (l :: rest) = .ok (opsTail ++ opsHead) := by
  rw [renderLayersRaw, ht, hh]

theorem renderLayersCanvas_cons (l : Layer) (rest : List Layer) :
    renderLayersCanvas (l :: rest) =
      renderLayersCanvas rest ++ renderLayerCanvas l := by
  rw [renderLayersCanvas]

theorem renderLayerRaw_skip {l : Layer}
    (h : l.hidden = true ∨ l.adjustment = true) :
    renderLayerRaw l = .ok [] := by
  have hcond : (l.hidden || l.adjustment) = true := by
    rcases h with h | h <;> simp [h]
  rw [renderLayerRaw, hcond]
  rfl

theorem renderLayerCanvas_skip {l : Layer}
    (h : l.hidden = true ∨ l.adjustment = true) :
    renderLayerCanvas l = [] := by
  have hcond : (l.hidden || l.adjustment) = true := by
    rcases h with h | h <;> simp [h]
  rw [renderLayerCanvas, hcond]
  rfl

theorem renderLayerRaw_group {l : Layer} {cs : List Layer}
    (hh : l.hidden = false) (ha : l.adjustment = false)
    (hc : l.children = some cs) :
    renderLayerRaw l = renderLayersRaw cs := by
  cases l with
  | mk f1 f2 f3 f4 f5 f6 f7 f8 f9 =>
      simp only at hh ha hc
      subst hh
      subst ha
      subst hc
      rw [renderLayerRaw]
      simp

theorem renderLayerCanvas_group {l : Layer} {cs : List Layer}
    (hh : l.hidden = false) (ha : l.adjustment = false)
    (hc : l.children = some cs) :
    renderLayerCanvas l = renderLayersCanvas cs := by
  cases l with
  | mk f1 f2 f3 f4 f5 f6 f7 f8 f9 =>
      simp only at hh ha hc
      subst hh
      subst ha
      subst hc
      rw [renderLayerCanvas]
      simp

/-- C4: the manual compositors paint siblings in reverse list order (the
draw operations of the tail — the visually lower layers — come first);
a hidden or adjustment sibling contributes nothing, for itself or its
subtree; and a visible group with non-empty children is recursed into on
the same surface, contributing exactly the operations of its children and
never its own pixel data. -/
theorem compositor_traversal_order (l : Layer) (rest : List Layer) :
    (∀ opsTail opsHead, renderLayersRaw rest = .ok opsTail →
       renderLayerRaw l = .ok opsHead →
       renderLayersRaw (l :: rest) = .ok (opsTail ++ opsHead)) ∧
    (renderLayersCanvas (l :: rest) =
       renderLayersCanvas rest ++ renderLayerCanvas l) ∧
    (l.hidden = true ∨ l.adjustment = true →
       renderLayerRaw l = .ok [] ∧ renderLayerCanvas l = []) ∧
    (∀ cs, l.hidden = false → l.adjustment = false →
       l.children = some cs → cs ≠ [] →
       renderLayerRaw l = renderLayersRaw cs ∧
       renderLayerCanvas l = renderLayersCanvas cs) := by
  refine ⟨?_, renderLayersCanvas_cons l rest, ?_, ?_⟩
  · intro opsTail opsHead ht hh
    exact renderLayersRaw_cons l rest ht hh
  · intro h
    exact ⟨renderLayerRaw_skip h, renderLayerCanvas_skip h⟩
  · intro cs hh ha hc _
    exact ⟨renderLayerRaw_group hh ha hc, renderLayerCanvas_group hh ha hc⟩

theorem compositor_traversal_order_witness :
    renderLayersRaw [groupW, hiddenW] = .ok ([] ++ [rawOpW]) ∧
    renderLayersCanvas [groupW, hiddenW] =
      renderLayersCanvas [hiddenW] ++ renderLayerCanvas groupW ∧
    (renderLayerRaw hiddenW = .ok [] ∧ renderLayerCanvas hiddenW = []) ∧
    (renderLayerRaw groupW = renderLayersRaw [leafW] ∧
     renderLayerCanvas groupW = renderLayersCanvas [leafW]) :=
  ⟨(compositor_traversal_order groupW [hiddenW]).1 [] [rawOpW]
      (by simp [renderLayersRaw, renderLayerRaw, hiddenW])
      (by simp [renderLayerRaw, renderLayersRaw, groupW, leafW, pdLeaf,
        pixelDataToCanvas, mkImageData, effectiveCompositeOp, jsOrString,
        BLEND_MODE_MAP, Canvas.toImage, rawOpW]),
   (compositor_traversal_order groupW [hiddenW]).2.1,
   (compositor_traversal_order hiddenW []).2.2.1 (Or.inl rfl),
   (compositor_traversal_order groupW [hiddenW]).2.2.2 [leafW] rfl rfl rfl
      (by simp)⟩

/-- C10: a `children` field takes precedence over pixel data in both manual
compositors: any visible, non-adjustment layer carrying a children array —
empty included — contributes exactly the operations of its children; its
own `imageData`/`canvas` are never painted, and an empty children array
contributes nothing. -/
theorem children_field_precedence (l : Layer) (cs : List Layer)
    (hh : l.hidden = false) (ha : l.adjustment = false)
    (hc : l.children = some cs) :
    renderLayerRaw l = renderLayersRaw cs ∧
    renderLayerCanvas l = renderLayersCanvas cs ∧
    (cs = [] → renderLayerRaw l = .ok [] ∧ renderLayerCanvas l = []) := by
  refine ⟨renderLayerRaw_group hh ha hc, renderLayerCanvas_group hh ha hc, ?_⟩
  rintro rfl
  exact ⟨(renderLayerRaw_group hh ha hc).trans (by rw [renderLayersRaw]),
    (renderLayerCanvas_group hh ha hc).trans (by rw [renderLayersCanvas])⟩

theorem children_field_precedence_witness :
    renderLayerRaw emptyGroupW = .ok [] ∧
    renderLayerCanvas emptyGroupW = [] :=
  (children_field_precedence emptyGroupW [] rfl rfl rfl).2.2 rfl

theorem effectiveCompositeOp_miss {s : String}
    (h : BLEND_MODE_MAP s = none) :
    effectiveCompositeOp (some s) = "source-over" := by
  unfold effectiveCompositeOp jsOrString
  by_cases hs : s = ""
  · subst hs
    rfl
  · simp [hs, h]

theorem renderLayerRaw_blendMode_congr (l : Layer) (b b₂ : Option String)
    (heq : effectiveCompositeOp b = effectiveCompositeOp b₂) :
    renderLayerRaw { l with blendMode := b } =
      renderLayerRaw { l with blendMode := b₂ } := by
  cases l with
  | mk f1 f2 f3 f4 f5 f6 f7 f8 f9 =>
      rw [renderLayerRaw]
      rw [renderLayerRaw]
      dsimp only
      by_cases hba : (f1 || f2) = true
      · rw [if_pos hba, if_pos hba]
      · rw [if_neg hba, if_neg hba]
        cases f3 with
        | some cs => rfl
        | none =>
            cases f4 with
            | none => rfl
            | some pd =>
                dsimp only
                by_cases hwh : pd.width > 0 ∧ pd.height > 0
                · rw [if_pos hwh, if_pos hwh]
                  cases hpc : pixelDataToCanvas pd with
                  | ok lc => rw [heq]
                  | error e => rfl
                · rw [if_neg hwh, if_neg hwh]

theorem renderLayerCanvas_blendMode_congr (l : Layer) (b b₂ : Option String)
    (heq : effectiveCompositeOp b = effectiveCompositeOp b₂) :
    renderLayerCanvas { l with blendMode := b } =
      renderLayerCanvas { l with blendMode := b₂ } := by
  cases l with
  | mk f1 f2 f3 f4 f5 f6 f7 f8 f9 =>
      rw [renderLayerCanvas]
      rw [renderLayerCanvas]
      dsimp only
      by_cases hba : (f1 || f2) = true
      · rw [if_pos hba, if_pos hba]
      · rw [if_neg hba, if_neg hba]
        cases f3 with
        | some cs => rfl
        | none =>
            cases f5 with
            | none => rfl
            | some c =>
                dsimp only
                rw [heq]

/-- C5: a layer whose blend-mode tag misses the `BLEND_MODE_MAP` table
composites exactly as the same layer tagged `normal`: the effective
composite operation falls back to `source-over`, and both manual
compositors produce identical painted output for the two taggings, alone
or inside a sibling list. -/
theorem blendMode_fallback_to_normal (l : Layer) (s : String)
    (hmiss : BLEND_MODE_MAP s = none) :
    effectiveCompositeOp (some s) = "source-over" ∧
    effectiveCompositeOp (some s) = effectiveCompositeOp (some "normal") ∧
    renderLayerRaw { l with blendMode := some s } =
      renderLayerRaw { l with blendMode := some "normal" } ∧
    renderLayerCanvas { l with blendMode := some s } =
      renderLayerCanvas { l with blendMode := some "normal" } ∧
    renderLayersRaw [{ l with blendMode := some s }] =
      renderLayersRaw [{ l with blendMode := some "normal" }] ∧
    renderLayersCanvas [{ l with blendMode := some s }] =
      renderLayersCanvas [{ l with blendMode := some "normal" }] := by
  have heff : effectiveCompositeOp (some s) =
      effectiveCompositeOp (some "normal") := by
    rw [effectiveCompositeOp_miss hmiss]
    rfl
  have hraw := renderLayerRaw_blendMode_congr l (some s) (some "normal") heff
  have hcv := renderLayerCanvas_blendMode_congr l (some s) (some "normal") heff
  refine ⟨effectiveCompositeOp_miss hmiss, heff, hraw, hcv, ?_, ?_⟩
  · simp only [renderLayersRaw]
    rw [hraw]
  · simp only [renderLayersCanvas]
    rw [hcv]

theorem blendMode_fallback_to_normal_witness :
    effectiveCompositeOp (some "mystery-mode") = "source-over" ∧
    renderLayerRaw { leafW with blendMode := some "mystery-mode" } =
      renderLayerRaw { leafW with blendMode := some "normal" } ∧
    renderLayerCanvas { leafW with blendMode := some "mystery-mode" } =
      renderLayerCanvas { leafW with blendMode := some "normal" } :=
  ⟨(blendMode_fallback_to_normal leafW "mystery-mode" (by decide)).1,
   (blendMode_fallback_to_normal leafW "mystery-mode" (by decide)).2.2.1,
   (blendMode_fallback_to_normal leafW "mystery-mode" (by decide)).2.2.2.1⟩

end Glasspdf
